import Mathlib

/-!
Verification of the Teltonika router/gateway integration module
(`MAVProxy/modules/mavproxy_teltonika.py`).

The development shallowly embeds the module's pure computations and its
stateful tick / SMS entry points:

* Python numeric string parsing (`float(s)`, `int(s)`, `int(float(s))`) is
  modelled over `ℚ` for plain decimal literals (the forms the module's data
  can take); exponent and special float forms are not modelled and are
  treated like a `ValueError`.
* `dict` field maps are modelled as association lists; `dict.get` returns an
  `Option`.
* Mutable module state (`session`, `last_update`, ... ) is threaded
  explicitly: `idle_task` becomes a function from a state and a one-tick
  environment (the gateway's replies and the vehicle data for that tick) to
  a new state plus the observable actions of the tick (JSON-RPC calls made,
  telemetry messages sent, and whether an uncaught exception escaped).
* The SMS handler `incoming_sms` becomes a pure function returning the HTTP
  reply text and the list of side effects (vehicle commands and outbound
  SMS messages) it performs; the textual contents of composed SMS replies
  are abstracted to constructors carrying their numeric payload, since
  Python float string formatting is not modelled.
-/

/-- Python-style `str.strip()`: drop leading and trailing whitespace from a
character list. -/
def pyTrim (cs : List Char) : List Char :=
  ((cs.dropWhile Char.isWhitespace).reverse.dropWhile Char.isWhitespace).reverse

/-- Numeric value of a list of decimal digit characters. -/
def digitsVal (cs : List Char) : Nat :=
  cs.foldl (fun a c => a * 10 + (c.toNat - 48)) 0

/-- Models Python `float(s)` restricted to plain decimal literals
(optional sign, digits, optional single decimal point): returns `none`
where Python raises `ValueError`.  Exponent notation, `inf`/`nan` and
digit underscores are not modelled. -/
def pyFloatRat (s : String) : Option ℚ :=
  let cs := pyTrim s.data
  let sgnRest : Int × List Char :=
    match cs with
    | '-' :: r => (-1, r)
    | '+' :: r => (1, r)
    | r => (1, r)
  let rest := sgnRest.2
  let ip := rest.takeWhile Char.isDigit
  let rest2 := rest.dropWhile Char.isDigit
  match rest2 with
  | [] => if ip.isEmpty then none else some (mkRat (sgnRest.1 * digitsVal ip) 1)
  | '.' :: fp =>
    if fp.all Char.isDigit && !(ip.isEmpty && fp.isEmpty) then
      some (mkRat (sgnRest.1 * (digitsVal ip * 10 ^ fp.length + digitsVal fp)) (10 ^ fp.length))
    else none
  | _ => none

/-- Truncation toward zero, the rounding used by Python `int(float)`. -/
def ratTrunc (q : ℚ) : Int := q.num.tdiv q.den

/-- Python `abs` on a rational value. -/
def pyAbsRat (q : ℚ) : ℚ := if q < 0 then -q else q

/-- Python `abs` on an integer value. -/
def pyAbsInt (n : Int) : Int := if n < 0 then -n else n

/-- Models Python `int(float(s))` (used by `_any_int`). -/
def pyFloatInt (s : String) : Option Int := (pyFloatRat s).map ratTrunc

/-- Models Python `int(s)` on a string: optional sign followed by digits
only; returns `none` where Python raises `ValueError`. -/
def pyInt (s : String) : Option Int :=
  let cs := pyTrim s.data
  let sgnRest : Int × List Char :=
    match cs with
    | '-' :: r => (-1, r)
    | '+' :: r => (1, r)
    | r => (1, r)
  if sgnRest.2.isEmpty || !sgnRest.2.all Char.isDigit then none
  else some (sgnRest.1 * (digitsVal sgnRest.2 : Int))

/-- Models `info.get(key)` on a Python dict, the dict being modelled as an
association list (keys unique, iteration order as listed). -/
def infoGet (info : List (String × String)) (key : String) : Option String :=
  (info.find? (fun p => p.1 == key)).map (fun p => p.2)

/-- Embeds `_any_int` (mavproxy_teltonika.py lines 373-381): return
`int(float(value.strip()))` of the first key whose value is present and
parses; a present but unparsable value falls through to the later keys;
`None` when no key yields a value. -/
def _any_int (info : List (String × String)) : List String → Option Int
  | [] => none
  | key :: keys =>
    match infoGet info key with
    | none => _any_int info keys
    | some value =>
      match pyFloatInt value with
      | some n => some n
      | none => _any_int info keys

/-- Python `x or d` for `x` an optional integer: `None` and `0` are both
falsy, so both select the fallback `d`. -/
def pyOrInt (x : Option Int) (d : Int) : Int :=
  match x with
  | none => d
  | some n => if n = 0 then d else n

/-- The signal-strength key priority list of line 293. -/
def signalKeys : List String := ["signal", "rsrp", "rscp", "rsrq"]

/-- Embeds line 293:
`rssi = -(_any_int(info['mobile'], 'signal', 'rsrp', 'rscp', 'rsrq') or -255)`. -/
def rssiOf (mobile : List (String × String)) : Int :=
  -(pyOrInt (_any_int mobile signalKeys) (-255))

/-- Embeds line 294: `snr = abs(_any_int(info['mobile'], 'sinr') or -255)`. -/
def snrOf (mobile : List (String × String)) : Int :=
  pyAbsInt (pyOrInt (_any_int mobile ["sinr"]) (-255))

/-- Python `str.lower()` (ASCII case mapping suffices for the command words
this module compares against). -/
def pyLower (s : String) : String := ⟨s.data.map Char.toLower⟩

/-- Python `str.upper()`. -/
def pyUpper (s : String) : String := ⟨s.data.map Char.toUpper⟩

/-- Python `s[n:]`. -/
def pyDrop (s : String) (n : Nat) : String := ⟨s.data.drop n⟩

/-- Python `s.startswith(p)`. -/
def pyStartsWith (s : String) (p : List Char) : Bool := p.isPrefixOf s.data

/-- Python `s.rstrip('°')`: remove every trailing degree sign. -/
def rstripDeg (s : String) : String := ⟨(s.data.reverse.dropWhile (· == '°')).reverse⟩

/-- Python `s.split(' ')` (single-space separator, empty fields kept). -/
def splitSpaces : List Char → List (List Char)
  | [] => [[]]
  | c :: rest =>
    let r := splitSpaces rest
    if c == ' ' then [] :: r
    else
      match r with
      | [] => [[c]]
      | t :: ts => (c :: t) :: ts

/-- Embeds line 78: `[a.strip() for a in message.split(' ') if a.strip()]`
(applied to the text after the `!!` sentinel). -/
def tokenize (s : String) : List String :=
  ((splitSpaces s.data).map (fun t => (⟨pyTrim t⟩ : String))).filter (fun a => a ≠ "")

/-- The two MAVLink coordinate frames the `move` command can select
(`MAV_FRAME_LOCAL_OFFSET_NED` and `MAV_FRAME_BODY_OFFSET_FRD`). -/
inductive MoveFrame where
  | local_offset_ned
  | body_offset_frd
deriving DecidableEq

/-- Vehicle commands the SMS handler can issue, with the payload fields the
claims are about. -/
inductive VehicleCmd where
  | command_long_arm
  | set_mode (mode : String)
  | set_position_target_local_ned (frame : MoveFrame) (x y : ℚ)
  | set_position_target_global_int (lat lon : Int)
  | do_change_speed (arg : String)
  | waypoint_set_current (n : Int)
deriving DecidableEq

/-- Identity of an outbound SMS reply.  The module composes these texts with
Python f-string float formatting, which is not modelled; each constructor
carries the data the text is built from. -/
inductive SmsText where
  | statusReport
  | usageMove
  | usageGoto (cmd : String)
  | usageSpeed
  | usageWp
  | notGuided (mode : String)
  | goingTo (lat lon : ℚ)
  | unknownCommand (cmd : String)
deriving DecidableEq

/-- Observable side effects of one `incoming_sms` invocation. -/
inductive SmsEffect where
  | vehicle (cmd : VehicleCmd)
  | sms (dest : String) (text : SmsText)
deriving DecidableEq

/-- The vehicle telemetry visible to the SMS handler: the current flight
mode and whether the cached SYS_STATUS / GLOBAL_POSITION_INT / WIND
messages exist (their numeric contents only feed the unmodelled status
text). -/
structure Vehicle where
  flightmode : String
  motors_armed : Bool
  hasSysStatus : Bool
  hasGlobalPosition : Bool
  hasWind : Bool
deriving DecidableEq

/-- Embeds lines 120-148: the displacement geometry of the `move` command.
`cosd` and `sind` abstract `cos(radians(bearing))` and
`sin(radians(bearing))`: they are parameters because float trigonometry is
not modelled; no claim exercises the bearing branch. -/
def moveGeometry (cosd sind : Int → ℚ) (distance1 : ℚ) (direction1 : String)
    (distance2 : ℚ) (direction2 : String) : MoveFrame × ℚ × ℚ :=
  let bearing : Option Int := if direction2 == "" then pyInt direction1 else none
  match bearing with
  | some b => (MoveFrame.local_offset_ned, distance1 * cosd b, distance1 * sind b)
  | none =>
    let compass := ["s", "e", "w", "n", "north", "south", "east", "west"]
    let fp :=
      if compass.contains direction1 && ("" :: compass).contains direction2 then
        (MoveFrame.local_offset_ned, ["n", "north"], ["s", "south"], ["e", "east"], ["w", "west"])
      else
        (MoveFrame.body_offset_frd, ["fwd"], ["aft"], ["stb"], ["port"])
    match fp with
    | (frame, pos_x, neg_x, pos_y, neg_y) =>
      let dx := (if pos_x.contains direction1 then distance1
                 else if neg_x.contains direction1 then -distance1 else 0)
              + (if pos_x.contains direction2 then distance2
                 else if neg_x.contains direction2 then -distance2 else 0)
      let dy := (if pos_y.contains direction1 then distance1
                 else if neg_y.contains direction1 then -distance1 else 0)
              + (if pos_y.contains direction2 then distance2
                 else if neg_y.contains direction2 then -distance2 else 0)
      (frame, dx, dy)

/-- Embeds the guard of line 150:
`abs(distance_x) > 0.5 or abs(distance_y) > 0.5`. -/
def moveSends (dx dy : ℚ) : Bool :=
  decide (pyAbsRat dx > (1 / 2 : ℚ)) || decide (pyAbsRat dy > (1 / 2 : ℚ))

/-- Embeds lines 108-162: the `move` command branch.  Returns the HTTP
reply text and effect list, or `none` when an exception escapes (a
non-numeric distance raising `ValueError`). -/
def moveBranch (cosd sind : Int → ℚ) (sender : String) (veh : Vehicle)
    (args : List String) : Option (String × List SmsEffect) :=
  if args.length ≠ 3 ∧ args.length ≠ 5 then
    some ("OK", [.sms sender .usageMove])
  else if veh.flightmode ≠ "GUIDED" then
    some ("OK", [.sms sender (.notGuided veh.flightmode)])
  else
    match pyFloatRat (args.getD 1 "") with
    | none => none
    | some distance1 =>
      let direction1 := pyLower (args.getD 2 "")
      match (if args.length == 5 then
               (pyFloatRat (args.getD 3 "")).map (fun d => (d, pyLower (args.getD 4 "")))
             else some ((0 : ℚ), "")) with
      | none => none
      | some (distance2, direction2) =>
        match moveGeometry cosd sind distance1 direction1 distance2 direction2 with
        | (frame, dx, dy) =>
          if moveSends dx dy then
            some ("Thanks", [.vehicle (.set_position_target_local_ned frame dx dy)])
          else
            some ("Thanks", [])

/-- Embeds lines 170-178: latitude/longitude extraction for `goto`/`go`.
In the 5-argument form only the first character of the 3rd and 5th token is
compared, case-sensitively, against `N` / `E`. -/
def gotoLatLon (args : List String) : Option (ℚ × ℚ) :=
  if args.length == 3 then
    match pyFloatRat (args.getD 1 ""), pyFloatRat (args.getD 2 "") with
    | some lat, some lon => some (lat, lon)
    | _, _ => none
  else
    match pyFloatRat (rstripDeg (args.getD 1 "")), (args.getD 2 "").data.head?,
          pyFloatRat (rstripDeg (args.getD 3 "")), (args.getD 4 "").data.head? with
    | some la, some c2, some lo, some c4 =>
      some (la * (if c2 = 'N' then 1 else -1), lo * (if c4 = 'E' then 1 else -1))
    | _, _, _, _ => none

/-- Embeds lines 163-190: the `goto`/`go` command branch. -/
def gotoBranch (cmd sender : String) (veh : Vehicle) (args : List String) :
    Option (String × List SmsEffect) :=
  if args.length ≠ 3 ∧ args.length ≠ 5 then
    some ("OK", [.sms sender (.usageGoto cmd)])
  else if veh.flightmode ≠ "GUIDED" then
    some ("OK", [.sms sender (.notGuided veh.flightmode)])
  else
    match gotoLatLon args with
    | none => none
    | some (lat, lon) =>
      some ("Thanks",
        [.sms sender (.goingTo lat lon),
         .vehicle (.set_position_target_global_int
           (ratTrunc (lat * mkRat 10000000 1)) (ratTrunc (lon * mkRat 10000000 1)))])

/-- Embeds `incoming_sms` (lines 71-212).  `decoded` is the base64-decoded,
UTF-8-decoded, stripped message body, `none` when decoding raises (the
decode happens after the enabled check, so a disabled handler returns
`DISABLED` even for an undecodable body).  The result is `none` when an
uncaught exception escapes the handler; otherwise it is the HTTP reply text
paired with the effects performed, in order. -/
def incoming_sms (cosd sind : Int → ℚ) (sms_enabled : Bool) (sender : String)
    (decoded : Option String) (veh : Vehicle) : Option (String × List SmsEffect) :=
  if !sms_enabled then some ("DISABLED", [])
  else
    match decoded with
    | none => none
    | some message =>
      if pyStartsWith message ['!', '!'] then
        let args := tokenize (pyDrop message 2)
        match args.head? with
        | none => none
        | some a0 =>
          let cmd := pyLower a0
          if cmd == "arm" then
            some ("Thanks", [.vehicle .command_long_arm])
          else if cmd == "status" then
            if veh.hasSysStatus && veh.hasGlobalPosition && veh.hasWind then
              some ("Thanks", [.sms sender .statusReport])
            else none
          else if (["rtl", "auto", "guided", "hold"]).contains cmd then
            some ("Thanks", [.vehicle (.set_mode (pyUpper cmd))])
          else if (["loit", "loiter"]).contains cmd then
            some ("Thanks", [.vehicle (.set_mode "LOITER")])
          else if cmd == "move" then
            moveBranch cosd sind sender veh args
          else if (["goto", "go"]).contains cmd then
            gotoBranch cmd sender veh args
          else if cmd == "pause" then
            some ("Thanks", [.vehicle (.set_mode "LOITER")])
          else if cmd == "speed" then
            if args.length ≠ 2 then some ("OK", [.sms sender .usageSpeed])
            else some ("Thanks", [.vehicle (.do_change_speed (args.getD 1 ""))])
          else if (["start", "resume"]).contains cmd then
            if veh.flightmode == "AUTO" then
              some ("Thanks", [.vehicle (.set_mode "LOITER"), .vehicle (.set_mode "AUTO")])
            else
              some ("Thanks", [.vehicle (.set_mode "AUTO")])
          else if cmd == "wp" then
            if args.length ≠ 2 then some ("OK", [.sms sender .usageWp])
            else
              match pyInt (args.getD 1 "") with
              | none => none
              | some n => some ("Thanks", [.vehicle (.waypoint_set_current n)])
          else
            some ("Thanks", [.sms sender (.unknownCommand cmd)])
      else
        some ("Thanks", [])

/-- Python `s[:n]`. -/
def pyTake (s : String) (n : Nat) : String := ⟨s.data.take n⟩

/-- The module settings `idle_task` reads (`freq`, `sendalllinks`,
`sendalloutputs`); connection parameters only shape the unmodelled HTTP
transport. -/
structure TelSettings where
  freq : ℚ
  sendalllinks : Bool
  sendalloutputs : Bool
deriving DecidableEq

/-- The mutable fields of `TeltonikaModule` that `idle_task` reads or
writes (lines 55-63). -/
structure TelState where
  started : Bool
  session : Option String
  last_status : Option (List (String × String))
  last_update : ℚ
  last_login : ℚ
  request_num : Nat
  last_status_message_update : ℚ
  modem : Option String
deriving DecidableEq

/-- One JSON-RPC response as `_json_rpc` sees it: either an error envelope
(which `_json_rpc` turns into a raised `JsonRPCError(code, message)`) or a
result array `[code, payload]`.  The payload type is per call; a payload
whose shape makes the Python code throw (`None` where a dict is indexed)
is modelled as `none`. -/
inductive Reply (α : Type) where
  | fault (code message : String)
  | ok (code : Int) (payload : α)
deriving DecidableEq

/-- Whether a reply is an error envelope (which `_json_rpc` raises as a
`JsonRPCError`). -/
def Reply.isFault {α : Type} : Reply α → Bool
  | .fault _ _ => true
  | .ok _ _ => false

/-- Record of one `_json_rpc` call: the first positional parameter
(`self.session or "000...0"`) and the `method`/`obj`/`action` triple. -/
structure CallRec where
  sessionParam : String
  method : String
  obj : String
  action : String
deriving DecidableEq

/-- A telemetry message sent to one link (lines 300-305), with the fields
the claims are about. -/
inductive TelemetryMsg where
  | cellular_status (rssi mcc mnc : Int)
  | radio_status (rssi snr : Int)
deriving DecidableEq

/-- The cached GLOBAL_POSITION_INT message (scaled-integer lat/lon). -/
structure GlobalPosition where
  lat : Int
  lon : Int
deriving DecidableEq

/-- Environment of a single `idle_task` tick: the wall clock and the
gateway's reply to each JSON-RPC call the tick may issue, plus the link
set and the cached vehicle position. -/
structure TickEnv where
  now : ℚ
  loginReply : Reply (Option String)
  uciGetReply : Reply (Option (List (List (String × String))))
  mobileReply : Reply (Option (List (String × String)))
  set1Reply : Reply Unit
  set2Reply : Reply Unit
  applyReply : Reply Unit
  masterLink : Bool
  allLinks : List Bool
  outputLinks : List Bool
  position : Option GlobalPosition
deriving DecidableEq

/-- Control flow out of a phase of `idle_task`: fall through to the next
phase, `return` early, or let an uncaught exception escape. -/
inductive TickFlow where
  | fallthrough
  | earlyReturn
  | exn
deriving DecidableEq

/-- Result of one `idle_task` tick: the new module state, the JSON-RPC
calls issued (in order), the telemetry messages sent, and whether an
uncaught exception escaped the tick. -/
structure TickResult where
  state : TelState
  calls : List CallRec
  sent : List TelemetryMsg
  crashed : Bool
deriving DecidableEq

/-- The fixed all-zero placeholder of line 242 (32 zeros). -/
def placeholderSession : String := "00000000000000000000000000000000"

/-- Embeds `self.session or "000...0"` of line 242: Python `or` falls back
on a `None` or empty session. -/
def sessionOr (s : Option String) : String :=
  match s with
  | some t => if t = "" then placeholderSession else t
  | none => placeholderSession

/-- State update and call record shared by every `_json_rpc` call (lines
238-244): the request id is incremented once per call, and the current
session (or placeholder) is sent as the first positional parameter. -/
def mkCall (st : TelState) (method obj action : String) : TelState × CallRec :=
  ({ st with request_num := st.request_num + 1 },
   ⟨sessionOr st.session, method, obj, action⟩)

/-- Embeds the `except JsonRPCError` handlers of lines 307-310 and 324-327:
exactly the code string `-32002` clears the session; every other code is
ignored. -/
def handleFault (st : TelState) (code : String) : TelState :=
  if code = "-32002" then { st with session := none } else st

/-- Embeds lines 277-281: first config section carrying a `modem` field, in
response order. -/
def findModem : List (List (String × String)) → Option String
  | [] => none
  | sec :: rest =>
    match infoGet sec "modem" with
    | some v => some v
    | none => findModem rest

/-- Embeds the send loop of lines 300-305.  Each link is just its
capability bit (`hasattr(link.mav, "cellular_status_send")`).  A cellular
link needs `int(mcc)`/`int(mnc)`; if either parse raises, the loop stops
with the messages sent so far and the exception escapes (second component
`false`). -/
def sendLoop (links : List Bool) (rssi snr : Int) (mcc mnc : String) :
    List TelemetryMsg × Bool :=
  match links with
  | [] => ([], true)
  | cellular :: rest =>
    if cellular then
      match pyInt mcc, pyInt mnc with
      | some m, some n =>
        let r := sendLoop rest rssi snr mcc mnc
        (.cellular_status rssi m n :: r.1, r.2)
      | _, _ => ([], false)
    else
      let r := sendLoop rest rssi snr mcc mnc
      (.radio_status rssi snr :: r.1, r.2)

/-- Embeds lines 254-265: when no session is held and the last login
attempt is more than 5 seconds old, stamp `last_login` and call login.  A
fault from the login call is uncaught (no surrounding `try`); a result
payload without the session id field would also raise.  A non-zero login
result returns from the tick early. -/
def loginPhase (st : TelState) (env : TickEnv) : TelState × List CallRec × TickFlow :=
  match st.session with
  | some _ => (st, [], .fallthrough)
  | none =>
    if env.now - st.last_login > 5 then
      let st1 : TelState := { st with last_login := env.now }
      let c := mkCall st1 "call" "session" "login"
      match env.loginReply with
      | .fault _ _ => (c.1, [c.2], .exn)
      | .ok code payload =>
        if code = 0 then
          match payload with
          | some tok => ({ c.1 with session := some tok }, [c.2], .fallthrough)
          | none => (c.1, [c.2], .exn)
        else (c.1, [c.2], .earlyReturn)
    else (st, [], .fallthrough)

/-- Embeds lines 268-281: resolve the modem handle if absent, via the
`uci get` configuration call.  The third component reports how the
enclosing `try` continues: `none` falls through to the mobile-info fetch,
`some flow` aborts the try block (a caught fault, or an escaping exception
when result 0 carries no usable payload). -/
def resolveModem (st : TelState) (env : TickEnv) :
    TelState × List CallRec × Option TickFlow :=
  match st.modem with
  | some _ => (st, [], none)
  | none =>
    let c := mkCall st "call" "uci" "get"
    match env.uciGetReply with
    | .fault code _ => (handleFault c.1 code, [c.2], some .fallthrough)
    | .ok code payload =>
      if code = 0 then
        match payload with
        | none => (c.1, [c.2], some .exn)
        | some sections => ({ c.1 with modem := findModem sections }, [c.2], none)
      else (c.1, [c.2], none)

/-- Embeds lines 266-310: the telemetry poll.  Resolve the modem if needed
(lines 268-281), `return` if still unresolved (282-283), fetch mobile info
(284), and on result 0 compute the signal fields, update the snapshot and
timestamp, and send to every link (285-305).  A `JsonRPCError` from either
call is caught: code `-32002` clears the session (307-310); any other
exception escapes. -/
def pollPhase (cfg : TelSettings) (st : TelState) (env : TickEnv) :
    TelState × List CallRec × List TelemetryMsg × TickFlow :=
  if env.now - st.last_update > 1 / cfg.freq then
    match resolveModem st env with
    | (st1, cs, some flow) => (st1, cs, [], flow)
    | (st1, cs, none) =>
      match st1.modem with
      | none => (st1, cs, [], .earlyReturn)
      | some _ =>
        let c2 := mkCall st1 "call" "vuci.network.mobile" "mobile_info"
        match env.mobileReply with
        | .fault code _ => (handleFault c2.1 code, cs ++ [c2.2], [], .fallthrough)
        | .ok code payload =>
          if code = 0 then
            match payload with
            | none => (c2.1, cs ++ [c2.2], [], .exn)
            | some mobile =>
              let links := (if cfg.sendalllinks then env.allLinks else [env.masterLink])
                        ++ (if cfg.sendalloutputs then env.outputLinks else [])
              let rssi := rssiOf mobile
              let snr := snrOf mobile
              match infoGet mobile "imsi" with
              | none => (c2.1, cs ++ [c2.2], [], .exn)
              | some imsiRaw =>
                let imsi : String := ⟨pyTrim imsiRaw.data⟩
                let mcc := pyTake imsi 3
                let mnc := pyTake (pyDrop imsi 3) 2
                let st3 : TelState :=
                  { c2.1 with last_status := some mobile, last_update := env.now }
                let sent := sendLoop links rssi snr mcc mnc
                (st3, cs ++ [c2.2], sent.1, if sent.2 then .fallthrough else .exn)
          else (c2.1, cs ++ [c2.2], [], .fallthrough)
  else (st, [], [], .fallthrough)

/-- Embeds lines 311-329: the status publisher.  Runs only with a session
held and 30 seconds elapsed; without a cached position it only logs.  The
two `uci set` calls and the `uci apply` call run in order; the publish
timestamp is stamped only after all three returned (their result codes are
only logged); a fault stops the sequence and clears the session exactly on
code `-32002`. -/
def publishPhase (st : TelState) (env : TickEnv) : TelState × List CallRec :=
  match st.session with
  | none => (st, [])
  | some _ =>
    if env.now - st.last_status_message_update > 30 then
      match env.position with
      | none => (st, [])
      | some _ =>
        let c1 := mkCall st "call" "uci" "set"
        match env.set1Reply with
        | .fault code _ => (handleFault c1.1 code, [c1.2])
        | .ok _ _ =>
          let c2 := mkCall c1.1 "call" "uci" "set"
          match env.set2Reply with
          | .fault code _ => (handleFault c2.1 code, [c1.2, c2.2])
          | .ok _ _ =>
            let c3 := mkCall c2.1 "call" "uci" "apply"
            match env.applyReply with
            | .fault code _ => (handleFault c3.1 code, [c1.2, c2.2, c3.2])
            | .ok _ _ =>
              ({ c3.1 with last_status_message_update := env.now }, [c1.2, c2.2, c3.2])
    else (st, [])

/-- Embeds `idle_task` (lines 249-329) as one tick: login phase, poll
phase, publish phase, with early `return` and uncaught exceptions cutting
the tick short. -/
def idle_task (cfg : TelSettings) (st : TelState) (env : TickEnv) : TickResult :=
  if st.started then
    match loginPhase st env with
    | (st1, cs1, .exn) => ⟨st1, cs1, [], true⟩
    | (st1, cs1, .earlyReturn) => ⟨st1, cs1, [], false⟩
    | (st1, cs1, .fallthrough) =>
      match pollPhase cfg st1 env with
      | (st2, cs2, sent, .exn) => ⟨st2, cs1 ++ cs2, sent, true⟩
      | (st2, cs2, sent, .earlyReturn) => ⟨st2, cs1 ++ cs2, sent, false⟩
      | (st2, cs2, sent, .fallthrough) =>
        match publishPhase st2 env with
        | (st3, cs3) => ⟨st3, cs1 ++ cs2 ++ cs3, sent, false⟩
  else ⟨st, [], [], false⟩

set_option maxRecDepth 16384

section
attribute [local semireducible] Rat.mul Rat.add Rat.sub Rat.inv Rat.ofScientific

lemma pyAbsRat_eq_abs (q : ℚ) : pyAbsRat q = |q| := by
  unfold pyAbsRat
  split
  · exact (abs_of_neg (by assumption)).symm
  · exact (abs_of_nonneg (le_of_not_lt (by assumption))).symm

/-- C1: the claim says a present signal key always determines the rssi as
the negation of its parsed value; but line 293 uses Python `or`, whose
falsy cases include the integer 0, so a first key parsing to 0 yields the
255 sentinel instead of -0 = 0.  Concretely, with `signal = "0"` present
the reported rssi is 255, not 0. -/
theorem C1_counterexample :
    (infoGet [("signal", "0")] "signal").isSome = true ∧
    pyFloatInt "0" = some 0 ∧
    rssiOf [("signal", "0")] = 255 ∧ (255 : Int) ≠ -0 := by decide

/-- C1 (amended): for every modem field map, the reported rssi is the
negation of the value of the first key among `signal`,`rsrp`,`rscp`,`rsrq`
that is present and parses, provided that value is non-zero; if that value
is zero, or no key is present and parses, the rssi is the 255 unknown
sentinel. -/
theorem C1_rssi_priority_amended (mobile : List (String × String)) :
    rssiOf mobile =
      (match _any_int mobile signalKeys with
       | some n => if n = 0 then 255 else -n
       | none => 255) := by
  rw [rssiOf]
  unfold pyOrInt
  cases h : _any_int mobile signalKeys with
  | none => simp
  | some n =>
    by_cases hn : n = 0
    · simp [hn]
    · simp [hn]

/-- C9: a highest-priority signal field parsing to the integer 0 is
collapsed to the 255 unknown sentinel by the `or -255` fallback of lines
293-294, both for rssi and (via `sinr`) for snr. -/
theorem C9_zero_signal_reports_unknown (mobile : List (String × String)) :
    (_any_int mobile signalKeys = some 0 → rssiOf mobile = 255) ∧
    (_any_int mobile ["sinr"] = some 0 → snrOf mobile = 255) := by
  constructor
  · intro h
    rw [rssiOf]
    unfold pyOrInt
    simp [h]
  · intro h
    rw [snrOf]
    unfold pyOrInt
    simp [h, pyAbsInt]

theorem C9_witness :
    rssiOf [("signal", "0"), ("sinr", "0")] = 255 ∧
    snrOf [("signal", "0"), ("sinr", "0")] = 255 :=
  ⟨(C9_zero_signal_reports_unknown [("signal", "0"), ("sinr", "0")]).1 (by decide),
   (C9_zero_signal_reports_unknown [("signal", "0"), ("sinr", "0")]).2 (by decide)⟩

/-- C5: a composed `move` displacement strictly below 0.5 in absolute
value on both axes fails the send guard of line 150, and in particular the
command `move 0.3 n` in guided mode replies without issuing any vehicle
command or other effect. -/
theorem C5_small_move_is_noop :
    (∀ dx dy : ℚ, |dx| < 1 / 2 → |dy| < 1 / 2 → moveSends dx dy = false) ∧
    (∀ cosd sind : Int → ℚ, ∀ sender : String, ∀ armed hs hp hw : Bool,
      incoming_sms cosd sind true sender (some "!!move 0.3 n")
        ⟨"GUIDED", armed, hs, hp, hw⟩ = some ("Thanks", [])) := by
  constructor
  · intro dx dy h1 h2
    simp only [moveSends, pyAbsRat_eq_abs, Bool.or_eq_false_iff, decide_eq_false_iff_not, not_lt]
    exact ⟨h1.le, h2.le⟩
  · intro cosd sind sender armed hs hp hw
    rfl

theorem C5_witness :
    moveSends 0 0 = false ∧
    incoming_sms (fun _ => 0) (fun _ => 0) true "w" (some "!!move 0.3 n")
      ⟨"GUIDED", false, false, false, false⟩ = some ("Thanks", []) :=
  ⟨C5_small_move_is_noop.1 0 0 (by norm_num) (by norm_num),
   C5_small_move_is_noop.2 (fun _ => 0) (fun _ => 0) "w" false false false false⟩

/-- C6: for every distance, the compass moves `n` and `s` (resp. `e` and
`w`) compute displacement vectors that are exact negations of one another,
both commands resolving in the local-offset frame. -/
theorem C6_compass_moves_negate (cosd sind : Int → ℚ) (d : ℚ) :
    (moveGeometry cosd sind d "n" 0 "").2.1 = -(moveGeometry cosd sind d "s" 0 "").2.1 ∧
    (moveGeometry cosd sind d "n" 0 "").2.2 = -(moveGeometry cosd sind d "s" 0 "").2.2 ∧
    (moveGeometry cosd sind d "e" 0 "").2.1 = -(moveGeometry cosd sind d "w" 0 "").2.1 ∧
    (moveGeometry cosd sind d "e" 0 "").2.2 = -(moveGeometry cosd sind d "w" 0 "").2.2 := by
  have hn : moveGeometry cosd sind d "n" 0 "" = (.local_offset_ned, d + 0, 0 + 0) := rfl
  have hs : moveGeometry cosd sind d "s" 0 "" = (.local_offset_ned, -d + 0, 0 + 0) := rfl
  have he : moveGeometry cosd sind d "e" 0 "" = (.local_offset_ned, 0 + 0, d + 0) := rfl
  have hw : moveGeometry cosd sind d "w" 0 "" = (.local_offset_ned, 0 + 0, -d + 0) := rfl
  rw [hn, hs, he, hw]
  norm_num

/-- C7: with the SMS feature disabled the handler returns the fixed
`DISABLED` marker whatever the body (even an undecodable one); enabled,
any decoded body not starting with the `!!` sentinel returns the `Thanks`
acknowledgment with an empty effect list — no vehicle command, no outbound
request.  The handler is a pure function of its inputs, so no module state
changes either. -/
theorem C7_non_sentinel_is_effect_free :
    (∀ cosd sind : Int → ℚ, ∀ sender : String, ∀ decoded : Option String, ∀ veh : Vehicle,
      incoming_sms cosd sind false sender decoded veh = some ("DISABLED", [])) ∧
    (∀ cosd sind : Int → ℚ, ∀ sender m : String, ∀ veh : Vehicle,
      pyStartsWith m ['!', '!'] = false →
      incoming_sms cosd sind true sender (some m) veh = some ("Thanks", [])) := by
  constructor
  · intro cosd sind sender decoded veh
    rfl
  · intro cosd sind sender m veh h
    simp [incoming_sms, h]

theorem C7_witness :
    incoming_sms (fun _ => 0) (fun _ => 0) false "w" none
      ⟨"AUTO", false, false, false, false⟩ = some ("DISABLED", []) ∧
    incoming_sms (fun _ => 0) (fun _ => 0) true "w" (some "hello")
      ⟨"AUTO", false, false, false, false⟩ = some ("Thanks", []) :=
  ⟨C7_non_sentinel_is_effect_free.1 (fun _ => 0) (fun _ => 0) "w" none
     ⟨"AUTO", false, false, false, false⟩,
   C7_non_sentinel_is_effect_free.2 (fun _ => 0) (fun _ => 0) "w" "hello"
     ⟨"AUTO", false, false, false, false⟩ (by decide)⟩

/-- C10: in the 5-argument `goto` form only the first character of the 3rd
and 5th tokens is examined, case-sensitively: with positive parsed
magnitudes the latitude is positive iff that character is the uppercase
`N` and the longitude is positive iff it is the uppercase `E`; any other
first character (lowercase included) silently selects the negative sign
rather than raising an error. -/
theorem C10_goto_hemisphere_case_sensitive
    (cmd a1 a2 a3 a4 : String) (c2 c4 : Char) (la lo : ℚ)
    (h1 : pyFloatRat (rstripDeg a1) = some la)
    (h2 : a2.data.head? = some c2)
    (h3 : pyFloatRat (rstripDeg a3) = some lo)
    (h4 : a4.data.head? = some c4)
    (hla : 0 < la) (hlo : 0 < lo) :
    gotoLatLon [cmd, a1, a2, a3, a4] =
      some (la * (if c2 = 'N' then 1 else -1), lo * (if c4 = 'E' then 1 else -1)) ∧
    (0 < la * (if c2 = 'N' then 1 else -1) ↔ c2 = 'N') ∧
    (0 < lo * (if c4 = 'E' then 1 else -1) ↔ c4 = 'E') := by
  refine ⟨?_, ?_, ?_⟩
  · simp [gotoLatLon, h1, h2, h3, h4]
  · by_cases hc : c2 = 'N'
    · simp [hc]
      linarith
    · simp [hc]
      nlinarith
  · by_cases hc : c4 = 'E'
    · simp [hc]
      linarith
    · simp [hc]
      nlinarith

theorem C10_witness :
    gotoLatLon ["go", "10.5°", "n", "20.5", "E"] =
      some (mkRat 105 10 * (if 'n' = 'N' then 1 else -1),
            mkRat 205 10 * (if 'E' = 'E' then 1 else -1)) ∧
    (0 < mkRat 105 10 * (if 'n' = 'N' then 1 else -1) ↔ 'n' = 'N') ∧
    (0 < mkRat 205 10 * (if 'E' = 'E' then 1 else -1) ↔ 'E' = 'E') :=
  C10_goto_hemisphere_case_sensitive "go" "10.5°" "n" "20.5" "E" 'n' 'E'
    (mkRat 105 10) (mkRat 205 10) (by decide) (by decide) (by decide) (by decide)
    (by decide) (by decide)

end

section
attribute [local semireducible] Rat.mul Rat.add Rat.sub Rat.inv Rat.ofScientific

lemma loginPhase_some (st : TelState) (env : TickEnv) (tok : String)
    (h : st.session = some tok) : loginPhase st env = (st, [], .fallthrough) := by
  unfold loginPhase
  rw [h]

lemma pollPhase_not_due (cfg : TelSettings) (st : TelState) (env : TickEnv)
    (h : ¬ env.now - st.last_update > 1 / cfg.freq) :
    pollPhase cfg st env = (st, [], [], .fallthrough) := by
  unfold pollPhase
  rw [if_neg h]

lemma resolveModem_some (st : TelState) (env : TickEnv) (m : String)
    (h : st.modem = some m) : resolveModem st env = (st, [], none) := by
  unfold resolveModem
  rw [h]

lemma handleFault_hit (st : TelState) :
    handleFault st "-32002" = { st with session := none } := by
  unfold handleFault
  rw [if_pos rfl]

lemma handleFault_miss (st : TelState) (c : String) (h : c ≠ "-32002") :
    handleFault st c = st := by
  unfold handleFault
  rw [if_neg h]

lemma publishPhase_no_session (st : TelState) (env : TickEnv)
    (h : st.session = none) : publishPhase st env = (st, []) := by
  unfold publishPhase
  rw [h]

lemma publishPhase_not_due (st : TelState) (env : TickEnv) (tok : String)
    (hs : st.session = some tok)
    (h : ¬ env.now - st.last_status_message_update > 30) :
    publishPhase st env = (st, []) := by
  unfold publishPhase
  rw [hs, if_neg h]

lemma pollPhase_fault (cfg : TelSettings) (st : TelState) (env : TickEnv)
    (m c msg : String)
    (hdue : env.now - st.last_update > 1 / cfg.freq)
    (hm : st.modem = some m)
    (hr : env.mobileReply = .fault c msg) :
    pollPhase cfg st env =
      (handleFault { st with request_num := st.request_num + 1 } c,
       [⟨sessionOr st.session, "call", "vuci.network.mobile", "mobile_info"⟩],
       [], .fallthrough) := by
  unfold pollPhase
  rw [if_pos hdue, resolveModem_some st env m hm]
  dsimp only
  conv_lhs => rw [hm, hr]
  rfl

/-- C3: when the mobile-info poll raises the invalid-session fault, the
telemetry snapshot and poll timestamp keep their previous values, no
telemetry message is sent that tick, and the session is cleared (so the
publisher is also skipped). -/
theorem C3_invalid_session_skips_publish
    (cfg : TelSettings) (st : TelState) (env : TickEnv) (tok m msg : String)
    (hstart : st.started = true)
    (hsess : st.session = some tok)
    (hm : st.modem = some m)
    (hdue : env.now - st.last_update > 1 / cfg.freq)
    (hr : env.mobileReply = .fault "-32002" msg) :
    (idle_task cfg st env).state.last_status = st.last_status ∧
    (idle_task cfg st env).state.last_update = st.last_update ∧
    (idle_task cfg st env).sent = [] ∧
    (idle_task cfg st env).state.session = none := by
  have h1 : idle_task cfg st env =
      ⟨{ st with request_num := st.request_num + 1, session := none },
       [⟨sessionOr st.session, "call", "vuci.network.mobile", "mobile_info"⟩],
       [], false⟩ := by
    unfold idle_task
    rw [if_pos hstart, loginPhase_some st env tok hsess]
    dsimp only
    rw [pollPhase_fault cfg st env m "-32002" msg hdue hm hr, handleFault_hit]
    dsimp only
    rw [publishPhase_no_session _ env rfl]
    rfl
  rw [h1]
  exact ⟨rfl, rfl, rfl, rfl⟩

theorem C3_witness :
    (idle_task ⟨1, false, false⟩ ⟨true, some "T", none, 0, 0, 1, 0, some "3-1"⟩
      ⟨100, .fault "x" "x", .fault "x" "x", .fault "-32002" "m", .ok 0 (), .ok 0 (),
       .ok 0 (), false, [], [], none⟩).state.last_status = none ∧
    (idle_task ⟨1, false, false⟩ ⟨true, some "T", none, 0, 0, 1, 0, some "3-1"⟩
      ⟨100, .fault "x" "x", .fault "x" "x", .fault "-32002" "m", .ok 0 (), .ok 0 (),
       .ok 0 (), false, [], [], none⟩).state.last_update = 0 ∧
    (idle_task ⟨1, false, false⟩ ⟨true, some "T", none, 0, 0, 1, 0, some "3-1"⟩
      ⟨100, .fault "x" "x", .fault "x" "x", .fault "-32002" "m", .ok 0 (), .ok 0 (),
       .ok 0 (), false, [], [], none⟩).sent = [] ∧
    (idle_task ⟨1, false, false⟩ ⟨true, some "T", none, 0, 0, 1, 0, some "3-1"⟩
      ⟨100, .fault "x" "x", .fault "x" "x", .fault "-32002" "m", .ok 0 (), .ok 0 (),
       .ok 0 (), false, [], [], none⟩).state.session = none :=
  C3_invalid_session_skips_publish ⟨1, false, false⟩
    ⟨true, some "T", none, 0, 0, 1, 0, some "3-1"⟩
    ⟨100, .fault "x" "x", .fault "x" "x", .fault "-32002" "m", .ok 0 (), .ok 0 (),
     .ok 0 (), false, [], [], none⟩
    "T" "3-1" "m" rfl rfl rfl (by decide) rfl
end

section
attribute [local semireducible] Rat.mul Rat.add Rat.sub Rat.inv Rat.ofScientific

lemma handleFault_started (st : TelState) (c : String) :
    (handleFault st c).started = st.started := by
  unfold handleFault
  split <;> rfl

lemma handleFault_last_login (st : TelState) (c : String) :
    (handleFault st c).last_login = st.last_login := by
  unfold handleFault
  split <;> rfl

lemma handleFault_lsmu (st : TelState) (c : String) :
    (handleFault st c).last_status_message_update = st.last_status_message_update := by
  unfold handleFault
  split <;> rfl

lemma handleFault_session_none (st : TelState) (c : String) (h : st.session = none) :
    (handleFault st c).session = none := by
  unfold handleFault
  split
  · rfl
  · exact h

lemma idle_task_publish_only (cfg : TelSettings) (st : TelState) (env : TickEnv)
    (tok : String)
    (hstart : st.started = true)
    (hsess : st.session = some tok)
    (hpoll : ¬ env.now - st.last_update > 1 / cfg.freq) :
    idle_task cfg st env = ⟨(publishPhase st env).1, (publishPhase st env).2, [], false⟩ := by
  unfold idle_task
  rw [if_pos hstart, loginPhase_some st env tok hsess]
  dsimp only
  rw [pollPhase_not_due cfg st env hpoll]
  dsimp only
  rcases hp : publishPhase st env with ⟨a, b⟩
  simp

/-- C8: with the poll not due and the publisher due, one tick's effect on
the publish timestamp: it is left unchanged when no vehicle position is
cached (so the publish retries next tick), it is set to the current time
exactly when the two template-set calls and the apply call all return a
result envelope (whatever their result codes — non-zero codes are only
logged), and it is left unchanged when any of the three calls raises. -/
theorem C8_publish_timestamp_discipline
    (cfg : TelSettings) (st : TelState) (env : TickEnv) (tok : String)
    (hstart : st.started = true)
    (hsess : st.session = some tok)
    (hpoll : ¬ env.now - st.last_update > 1 / cfg.freq)
    (hdue30 : env.now - st.last_status_message_update > 30) :
    (env.position = none →
      (idle_task cfg st env).state.last_status_message_update
        = st.last_status_message_update) ∧
    ((env.position.isSome = true ∧ env.set1Reply.isFault = false ∧
      env.set2Reply.isFault = false ∧ env.applyReply.isFault = false) →
      (idle_task cfg st env).state.last_status_message_update = env.now) ∧
    ((env.position.isSome = true ∧ (env.set1Reply.isFault = true ∨
      env.set2Reply.isFault = true ∨ env.applyReply.isFault = true)) →
      (idle_task cfg st env).state.last_status_message_update
        = st.last_status_message_update) := by
  rw [idle_task_publish_only cfg st env tok hstart hsess hpoll]
  dsimp only
  refine ⟨?_, ?_, ?_⟩
  · intro hpos
    have hp : publishPhase st env = (st, []) := by
      unfold publishPhase
      rw [hsess]
      dsimp only
      rw [if_pos hdue30, hpos]
    rw [hp]
  · rintro ⟨hpos, h1, h2, h3⟩
    rcases hposs : env.position with _ | p
    · rw [hposs] at hpos
      simp at hpos
    rcases hr1 : env.set1Reply with ⟨c1, m1⟩ | ⟨co1, p1⟩
    · rw [hr1] at h1
      simp [Reply.isFault] at h1
    rcases hr2 : env.set2Reply with ⟨c2x, m2⟩ | ⟨co2, p2⟩
    · rw [hr2] at h2
      simp [Reply.isFault] at h2
    rcases hr3 : env.applyReply with ⟨c3x, m3⟩ | ⟨co3, p3⟩
    · rw [hr3] at h3
      simp [Reply.isFault] at h3
    unfold publishPhase
    rw [hsess]
    dsimp only
    rw [if_pos hdue30, hposs, hr1, hr2, hr3]
  · rintro ⟨hpos, hflt⟩
    rcases hposs : env.position with _ | p
    · rw [hposs] at hpos
      simp at hpos
    rcases hr1 : env.set1Reply with ⟨c1, m1⟩ | ⟨co1, p1⟩
    · unfold publishPhase
      rw [hsess]
      dsimp only
      rw [if_pos hdue30, hposs, hr1]
      dsimp only
      rw [handleFault_lsmu]
      rfl
    · rcases hr2 : env.set2Reply with ⟨c2x, m2⟩ | ⟨co2, p2⟩
      · unfold publishPhase
        rw [hsess]
        dsimp only
        rw [if_pos hdue30, hposs, hr1, hr2]
        dsimp only
        rw [handleFault_lsmu]
        rfl
      · rcases hr3 : env.applyReply with ⟨c3x, m3⟩ | ⟨co3, p3⟩
        · unfold publishPhase
          rw [hsess]
          dsimp only
          rw [if_pos hdue30, hposs, hr1, hr2, hr3]
          dsimp only
          rw [handleFault_lsmu]
          rfl
        · rw [hr1, hr2, hr3] at hflt
          simp [Reply.isFault] at hflt

theorem C8_witness :
    ((⟨100, .fault "x" "x", .fault "x" "x", .fault "x" "x", .ok 7 (), .ok 0 (),
       .ok 3 (), false, [], [], some ⟨1, 2⟩⟩ : TickEnv).position = none →
      (idle_task ⟨1, false, false⟩ ⟨true, some "T", none, 100, 0, 1, 0, some "3-1"⟩
        ⟨100, .fault "x" "x", .fault "x" "x", .fault "x" "x", .ok 7 (), .ok 0 (),
         .ok 3 (), false, [], [], some ⟨1, 2⟩⟩).state.last_status_message_update = 0) ∧
    (((⟨100, .fault "x" "x", .fault "x" "x", .fault "x" "x", .ok 7 (), .ok 0 (),
       .ok 3 (), false, [], [], some ⟨1, 2⟩⟩ : TickEnv).position.isSome = true ∧
      Reply.isFault (.ok 7 ()) = false ∧ Reply.isFault (.ok 0 ()) = false ∧
      Reply.isFault (.ok 3 ()) = false) →
      (idle_task ⟨1, false, false⟩ ⟨true, some "T", none, 100, 0, 1, 0, some "3-1"⟩
        ⟨100, .fault "x" "x", .fault "x" "x", .fault "x" "x", .ok 7 (), .ok 0 (),
         .ok 3 (), false, [], [], some ⟨1, 2⟩⟩).state.last_status_message_update = 100) ∧
    (((⟨100, .fault "x" "x", .fault "x" "x", .fault "x" "x", .ok 7 (), .ok 0 (),
       .ok 3 (), false, [], [], some ⟨1, 2⟩⟩ : TickEnv).position.isSome = true ∧
      (Reply.isFault (.ok 7 ()) = true ∨ Reply.isFault (.ok 0 ()) = true ∨
       Reply.isFault (.ok 3 ()) = true)) →
      (idle_task ⟨1, false, false⟩ ⟨true, some "T", none, 100, 0, 1, 0, some "3-1"⟩
        ⟨100, .fault "x" "x", .fault "x" "x", .fault "x" "x", .ok 7 (), .ok 0 (),
         .ok 3 (), false, [], [], some ⟨1, 2⟩⟩).state.last_status_message_update = 0) :=
  C8_publish_timestamp_discipline ⟨1, false, false⟩
    ⟨true, some "T", none, 100, 0, 1, 0, some "3-1"⟩
    ⟨100, .fault "x" "x", .fault "x" "x", .fault "x" "x", .ok 7 (), .ok 0 (),
     .ok 3 (), false, [], [], some ⟨1, 2⟩⟩
    "T" rfl rfl (by decide) (by decide)

end

section
attribute [local semireducible] Rat.mul Rat.add Rat.sub Rat.inv Rat.ofScientific

lemma resolveModem_frame (st : TelState) (env : TickEnv) :
    (resolveModem st env).1.last_login = st.last_login ∧
    ((resolveModem st env).2.1.all (fun r => !(r.action == "login"))) = true := by
  unfold resolveModem
  rcases hm : st.modem with _ | m
  · dsimp only
    rcases hr : env.uciGetReply with ⟨c, msg⟩ | ⟨code, payload⟩ <;> dsimp only
    · constructor
      · rw [handleFault_last_login]
        rfl
      · rfl
    · split
      · rcases payload with _ | secs <;> dsimp only
        · exact ⟨rfl, rfl⟩
        · exact ⟨rfl, rfl⟩
      · exact ⟨rfl, rfl⟩
  · exact ⟨rfl, rfl⟩

lemma resolveModem_session_none (st : TelState) (env : TickEnv)
    (h : st.session = none) : (resolveModem st env).1.session = none := by
  unfold resolveModem
  rcases hm : st.modem with _ | m
  · dsimp only
    rcases hr : env.uciGetReply with ⟨c, msg⟩ | ⟨code, payload⟩ <;> dsimp only
    · exact handleFault_session_none _ _ h
    · split
      · rcases payload with _ | secs <;> dsimp only
        · exact h
        · exact h
      · exact h
  · exact h

lemma pollPhase_frame (cfg : TelSettings) (st : TelState) (env : TickEnv) :
    (pollPhase cfg st env).1.last_login = st.last_login ∧
    ((pollPhase cfg st env).2.1.all (fun r => !(r.action == "login"))) = true := by
  unfold pollPhase
  split
  case isFalse => exact ⟨rfl, rfl⟩
  case isTrue hdue =>
    rcases hres : resolveModem st env with ⟨st1, cs, flow⟩
    have hfr := resolveModem_frame st env
    rw [hres] at hfr
    rcases flow with _ | f
    · dsimp only
      rcases hm1 : st1.modem with _ | m1 <;> dsimp only
      · exact hfr
      · rcases hr : env.mobileReply with ⟨c, msg⟩ | ⟨code, payload⟩ <;> dsimp only
        · constructor
          · rw [handleFault_last_login]
            exact hfr.1
          · rw [List.all_append, hfr.2]
            rfl
        · split
          · rcases payload with _ | mobile <;> dsimp only
            · constructor
              · exact hfr.1
              · rw [List.all_append, hfr.2]
                rfl
            · rcases hims : infoGet mobile "imsi" with _ | raw <;> dsimp only
              · constructor
                · exact hfr.1
                · rw [List.all_append, hfr.2]
                  rfl
              · constructor
                · exact hfr.1
                · rw [List.all_append, hfr.2]
                  rfl
          · constructor
            · exact hfr.1
            · rw [List.all_append, hfr.2]
              rfl
    · dsimp only
      exact hfr

lemma pollPhase_session_none (cfg : TelSettings) (st : TelState) (env : TickEnv)
    (h : st.session = none) : (pollPhase cfg st env).1.session = none := by
  unfold pollPhase
  split
  case isFalse => exact h
  case isTrue hdue =>
    rcases hres : resolveModem st env with ⟨st1, cs, flow⟩
    have hsn : st1.session = none := by
      have := resolveModem_session_none st env h
      rw [hres] at this
      exact this
    rcases flow with _ | f
    · dsimp only
      rcases hm1 : st1.modem with _ | m1 <;> dsimp only
      · exact hsn
      · rcases hr : env.mobileReply with ⟨c, msg⟩ | ⟨code, payload⟩ <;> dsimp only
        · exact handleFault_session_none _ _ hsn
        · split
          · rcases payload with _ | mobile <;> dsimp only
            · exact hsn
            · rcases hims : infoGet mobile "imsi" with _ | raw <;> dsimp only
              · exact hsn
              · exact hsn
          · exact hsn
    · dsimp only
      exact hsn

lemma publishPhase_frame (st : TelState) (env : TickEnv) :
    (publishPhase st env).1.last_login = st.last_login ∧
    ((publishPhase st env).2.all (fun r => !(r.action == "login"))) = true := by
  unfold publishPhase
  rcases hs : st.session with _ | tok
  · exact ⟨rfl, rfl⟩
  · dsimp only
    split
    · rcases hp : env.position with _ | p <;> dsimp only
      · exact ⟨rfl, rfl⟩
      · rcases hr1 : env.set1Reply with ⟨c1, m1⟩ | ⟨co1, p1⟩ <;> dsimp only
        · constructor
          · rw [handleFault_last_login]
            rfl
          · rfl
        · rcases hr2 : env.set2Reply with ⟨c2x, m2⟩ | ⟨co2, p2⟩ <;> dsimp only
          · constructor
            · rw [handleFault_last_login]
              rfl
            · rfl
          · rcases hr3 : env.applyReply with ⟨c3x, m3⟩ | ⟨co3, p3⟩ <;> dsimp only
            · constructor
              · rw [handleFault_last_login]
                rfl
              · rfl
            · exact ⟨rfl, rfl⟩
    · exact ⟨rfl, rfl⟩

lemma loginPhase_due (st : TelState) (env : TickEnv)
    (hsess : st.session = none) (hgt : env.now - st.last_login > 5) :
    ∃ st1 flow1, loginPhase st env =
      (st1, [⟨placeholderSession, "call", "session", "login"⟩], flow1) ∧
      st1.last_login = env.now := by
  unfold loginPhase
  rw [hsess]
  dsimp only
  rw [if_pos hgt]
  rcases hr : env.loginReply with ⟨c, msg⟩ | ⟨code, payload⟩ <;> dsimp only
  · exact ⟨_, _, rfl, rfl⟩
  · split
    · rcases payload with _ | tok2 <;> dsimp only
      · exact ⟨_, _, rfl, rfl⟩
      · exact ⟨_, _, rfl, rfl⟩
    · exact ⟨_, _, rfl, rfl⟩

/-- C4 (amended): with no session held, a tick strictly more than 5
seconds after the previous login attempt issues a login call (as the
tick's first RPC call, carrying the placeholder session) and stamps the
attempt timestamp with the current time — whether the login succeeds,
fails, or raises; a tick at most 5 seconds after the previous attempt
issues no login call and leaves the timestamp unchanged. -/
theorem C4_login_rate_limit_amended
    (cfg : TelSettings) (st : TelState) (env : TickEnv)
    (hstart : st.started = true)
    (hsess : st.session = none) :
    (env.now - st.last_login ≤ 5 →
      ((idle_task cfg st env).calls.all (fun r => !(r.action == "login"))) = true ∧
      (idle_task cfg st env).state.last_login = st.last_login) ∧
    (env.now - st.last_login > 5 →
      (idle_task cfg st env).calls.head? =
        some ⟨placeholderSession, "call", "session", "login"⟩ ∧
      (idle_task cfg st env).state.last_login = env.now) := by
  constructor
  · intro hle
    have hng : ¬ env.now - st.last_login > 5 := not_lt.mpr hle
    have hlp : loginPhase st env = (st, [], .fallthrough) := by
      unfold loginPhase
      rw [hsess]
      dsimp only
      rw [if_neg hng]
    unfold idle_task
    rw [if_pos hstart, hlp]
    dsimp only
    rcases hp : pollPhase cfg st env with ⟨st2, cs2, sent2, fl2⟩
    have hfr := pollPhase_frame cfg st env
    rw [hp] at hfr
    have hsn : st2.session = none := by
      have := pollPhase_session_none cfg st env hsess
      rw [hp] at this
      exact this
    rcases fl2 <;> dsimp only
    case fallthrough =>
      rw [publishPhase_no_session st2 env hsn]
      dsimp only
      constructor
      · simp only [List.nil_append, List.all_append, hfr.2]
        rfl
      · exact hfr.1
    case earlyReturn =>
      constructor
      · simp only [List.nil_append, hfr.2]
      · exact hfr.1
    case exn =>
      constructor
      · simp only [List.nil_append, hfr.2]
      · exact hfr.1
  · intro hgt
    obtain ⟨st1, flow1, hl, hll⟩ := loginPhase_due st env hsess hgt
    unfold idle_task
    rw [if_pos hstart, hl]
    dsimp only
    rcases flow1 <;> dsimp only
    case earlyReturn => exact ⟨rfl, hll⟩
    case exn => exact ⟨rfl, hll⟩
    case fallthrough =>
      rcases hp : pollPhase cfg st1 env with ⟨st2, cs2, sent2, fl2⟩
      have hfr := pollPhase_frame cfg st1 env
      rw [hp] at hfr
      rcases fl2 <;> dsimp only
      case earlyReturn => exact ⟨rfl, hfr.1.trans hll⟩
      case exn => exact ⟨rfl, hfr.1.trans hll⟩
      case fallthrough =>
        rcases hpub : publishPhase st2 env with ⟨st3, cs3⟩
        have hpf := publishPhase_frame st2 env
        rw [hpub] at hpf
        exact ⟨rfl, hpf.1.trans (hfr.1.trans hll)⟩

/-- C4: the claim as stated requires a tick at exactly 5 seconds after the
previous login attempt to issue a login call, but the guard of line 255 is
the strict comparison `now - self.last_login > 5`: at exactly 5 elapsed
seconds the tick issues no call at all. -/
theorem C4_counterexample :
    ((10 : ℚ) - (⟨true, none, none, 10, 5, 1, 0, some "m"⟩ : TelState).last_login = 5) ∧
    idle_task ⟨1, false, false⟩ (⟨true, none, none, 10, 5, 1, 0, some "m"⟩ : TelState)
      ⟨10, .ok 0 (some "TOK"), .ok 0 none, .ok 0 none, .ok 0 (), .ok 0 (), .ok 0 (),
       false, [], [], none⟩ =
      ⟨⟨true, none, none, 10, 5, 1, 0, some "m"⟩, [], [], false⟩ := by decide

theorem C4_witness :
    ((20 : ℚ) - (⟨true, none, none, 20, 5, 1, 0, some "m"⟩ : TelState).last_login ≤ 5 →
      ((idle_task ⟨1, false, false⟩ ⟨true, none, none, 20, 5, 1, 0, some "m"⟩
        ⟨20, .ok 0 (some "TOK"), .ok 0 none, .ok 0 none, .ok 0 (), .ok 0 (), .ok 0 (),
         false, [], [], none⟩).calls.all (fun r => !(r.action == "login"))) = true ∧
      (idle_task ⟨1, false, false⟩ ⟨true, none, none, 20, 5, 1, 0, some "m"⟩
        ⟨20, .ok 0 (some "TOK"), .ok 0 none, .ok 0 none, .ok 0 (), .ok 0 (), .ok 0 (),
         false, [], [], none⟩).state.last_login = 5) ∧
    ((20 : ℚ) - (⟨true, none, none, 20, 5, 1, 0, some "m"⟩ : TelState).last_login > 5 →
      (idle_task ⟨1, false, false⟩ ⟨true, none, none, 20, 5, 1, 0, some "m"⟩
        ⟨20, .ok 0 (some "TOK"), .ok 0 none, .ok 0 none, .ok 0 (), .ok 0 (), .ok 0 (),
         false, [], [], none⟩).calls.head? =
        some ⟨placeholderSession, "call", "session", "login"⟩ ∧
      (idle_task ⟨1, false, false⟩ ⟨true, none, none, 20, 5, 1, 0, some "m"⟩
        ⟨20, .ok 0 (some "TOK"), .ok 0 none, .ok 0 none, .ok 0 (), .ok 0 (), .ok 0 (),
         false, [], [], none⟩).state.last_login = 20) :=
  C4_login_rate_limit_amended ⟨1, false, false⟩
    ⟨true, none, none, 20, 5, 1, 0, some "m"⟩
    ⟨20, .ok 0 (some "TOK"), .ok 0 none, .ok 0 none, .ok 0 (), .ok 0 (), .ok 0 (),
     false, [], [], none⟩ rfl rfl

end

section
attribute [local semireducible] Rat.mul Rat.add Rat.sub Rat.inv Rat.ofScientific

lemma resolveModem_fault (st : TelState) (env : TickEnv) (c msg : String)
    (hm : st.modem = none) (hr : env.uciGetReply = .fault c msg) :
    resolveModem st env =
      (handleFault { st with request_num := st.request_num + 1 } c,
       [⟨sessionOr st.session, "call", "uci", "get"⟩], some .fallthrough) := by
  unfold resolveModem
  conv_lhs => rw [hm, hr]
  rfl

lemma pollPhase_resolver_fault (cfg : TelSettings) (st : TelState) (env : TickEnv)
    (c msg : String)
    (hdue : env.now - st.last_update > 1 / cfg.freq)
    (hm : st.modem = none) (hr : env.uciGetReply = .fault c msg) :
    pollPhase cfg st env =
      (handleFault { st with request_num := st.request_num + 1 } c,
       [⟨sessionOr st.session, "call", "uci", "get"⟩], [], .fallthrough) := by
  unfold pollPhase
  rw [if_pos hdue, resolveModem_fault st env c msg hm hr]

lemma publishPhase_set1_fault (st : TelState) (env : TickEnv) (tok c msg : String)
    (p : GlobalPosition)
    (hsess : st.session = some tok)
    (hdue30 : env.now - st.last_status_message_update > 30)
    (hpos : env.position = some p)
    (hr : env.set1Reply = .fault c msg) :
    publishPhase st env =
      (handleFault { st with request_num := st.request_num + 1 } c,
       [⟨sessionOr st.session, "call", "uci", "set"⟩]) := by
  unfold publishPhase
  conv_lhs => rw [hsess]
  dsimp only
  rw [if_pos hdue30]
  conv_lhs => rw [hpos, hr]
  rfl

lemma publishPhase_set2_fault (st : TelState) (env : TickEnv) (tok c msg : String)
    (p : GlobalPosition) (code1 : Int)
    (hsess : st.session = some tok)
    (hdue30 : env.now - st.last_status_message_update > 30)
    (hpos : env.position = some p)
    (hr1 : env.set1Reply = .ok code1 ())
    (hr2 : env.set2Reply = .fault c msg) :
    publishPhase st env =
      (handleFault { st with request_num := st.request_num + 1 + 1 } c,
       [⟨sessionOr st.session, "call", "uci", "set"⟩,
        ⟨sessionOr st.session, "call", "uci", "set"⟩]) := by
  unfold publishPhase
  conv_lhs => rw [hsess]
  dsimp only
  rw [if_pos hdue30]
  conv_lhs => rw [hpos, hr1, hr2]
  rfl

lemma publishPhase_apply_fault (st : TelState) (env : TickEnv) (tok c msg : String)
    (p : GlobalPosition) (code1 code2 : Int)
    (hsess : st.session = some tok)
    (hdue30 : env.now - st.last_status_message_update > 30)
    (hpos : env.position = some p)
    (hr1 : env.set1Reply = .ok code1 ())
    (hr2 : env.set2Reply = .ok code2 ())
    (hr3 : env.applyReply = .fault c msg) :
    publishPhase st env =
      (handleFault { st with request_num := st.request_num + 1 + 1 + 1 } c,
       [⟨sessionOr st.session, "call", "uci", "set"⟩,
        ⟨sessionOr st.session, "call", "uci", "set"⟩,
        ⟨sessionOr st.session, "call", "uci", "apply"⟩]) := by
  unfold publishPhase
  conv_lhs => rw [hsess]
  dsimp only
  rw [if_pos hdue30]
  conv_lhs => rw [hpos, hr1, hr2, hr3]
  rfl

lemma idle_task_login_fault (cfg : TelSettings) (st : TelState) (env : TickEnv)
    (c msg : String)
    (hstart : st.started = true)
    (hsess : st.session = none)
    (hgt : env.now - st.last_login > 5)
    (hr : env.loginReply = .fault c msg) :
    idle_task cfg st env =
      ⟨{ st with session := none, last_login := env.now, request_num := st.request_num + 1 },
       [⟨placeholderSession, "call", "session", "login"⟩], [], true⟩ := by
  unfold idle_task
  rw [if_pos hstart]
  unfold loginPhase
  conv_lhs => rw [hsess]
  dsimp only
  rw [if_pos hgt]
  conv_lhs => rw [hr]
  rfl

/-- C2: for every JSON-RPC call the module makes — the modem-resolution
`uci get`, the `mobile_info` poll, the two `uci set` template writes, the
`uci apply` commit, and login — a raised `JsonRPCError` clears the stored
session exactly when its code is the string `-32002`; any other code
leaves the token unchanged.  After clearing, the first positional
parameter presented on a subsequent call — `sessionOr` of the stored
session, which is what `mkCall` attaches to every call — is the fixed
all-zero placeholder rather than the stale token.  The login call is
issued only when no session is held and its fault is not caught by any
handler, so there is no stored token to clear at that site: the session
stays absent for every fault code (consistent with the claim both ways)
and the exception escapes the tick. -/
theorem C2_invalid_session_code_match
    (cfg : TelSettings) (st : TelState) (env : TickEnv)
    (tok m c msg : String) (p : GlobalPosition) (code1 code2 : Int) :
    (st.started = true → st.session = some tok → st.modem = none →
      env.now - st.last_update > 1 / cfg.freq →
      env.uciGetReply = .fault c msg →
      ¬ env.now - st.last_status_message_update > 30 →
      (idle_task cfg st env).state.session = (if c = "-32002" then none else some tok) ∧
      sessionOr (idle_task cfg st env).state.session =
        (if c = "-32002" then placeholderSession else sessionOr st.session)) ∧
    (st.started = true → st.session = some tok → st.modem = some m →
      env.now - st.last_update > 1 / cfg.freq →
      env.mobileReply = .fault c msg →
      ¬ env.now - st.last_status_message_update > 30 →
      (idle_task cfg st env).state.session = (if c = "-32002" then none else some tok) ∧
      sessionOr (idle_task cfg st env).state.session =
        (if c = "-32002" then placeholderSession else sessionOr st.session)) ∧
    (st.started = true → st.session = some tok →
      ¬ env.now - st.last_update > 1 / cfg.freq →
      env.now - st.last_status_message_update > 30 →
      env.position = some p →
      env.set1Reply = .fault c msg →
      (idle_task cfg st env).state.session = (if c = "-32002" then none else some tok) ∧
      sessionOr (idle_task cfg st env).state.session =
        (if c = "-32002" then placeholderSession else sessionOr st.session)) ∧
    (st.started = true → st.session = some tok →
      ¬ env.now - st.last_update > 1 / cfg.freq →
      env.now - st.last_status_message_update > 30 →
      env.position = some p →
      env.set1Reply = .ok code1 () →
      env.set2Reply = .fault c msg →
      (idle_task cfg st env).state.session = (if c = "-32002" then none else some tok) ∧
      sessionOr (idle_task cfg st env).state.session =
        (if c = "-32002" then placeholderSession else sessionOr st.session)) ∧
    (st.started = true → st.session = some tok →
      ¬ env.now - st.last_update > 1 / cfg.freq →
      env.now - st.last_status_message_update > 30 →
      env.position = some p →
      env.set1Reply = .ok code1 () →
      env.set2Reply = .ok code2 () →
      env.applyReply = .fault c msg →
      (idle_task cfg st env).state.session = (if c = "-32002" then none else some tok) ∧
      sessionOr (idle_task cfg st env).state.session =
        (if c = "-32002" then placeholderSession else sessionOr st.session)) ∧
    (st.started = true → st.session = none →
      env.now - st.last_login > 5 →
      env.loginReply = .fault c msg →
      (idle_task cfg st env).state.session = none ∧
      sessionOr (idle_task cfg st env).state.session = placeholderSession ∧
      (idle_task cfg st env).crashed = true) := by
  refine ⟨?_, ?_, ?_, ?_, ?_, ?_⟩
  · intro hstart hsess hm hdue hr hpub
    by_cases hc : c = "-32002"
    · subst hc
      have h1 : idle_task cfg st env =
          ⟨{ st with request_num := st.request_num + 1, session := none },
           [⟨sessionOr st.session, "call", "uci", "get"⟩], [], false⟩ := by
        unfold idle_task
        rw [if_pos hstart, loginPhase_some st env tok hsess]
        dsimp only
        rw [pollPhase_resolver_fault cfg st env "-32002" msg hdue hm hr, handleFault_hit]
        dsimp only
        rw [publishPhase_no_session _ env rfl]
        rfl
      rw [h1]
      exact ⟨by simp, by simp [sessionOr]⟩
    · have h1 : idle_task cfg st env =
          ⟨{ st with request_num := st.request_num + 1 },
           [⟨sessionOr st.session, "call", "uci", "get"⟩], [], false⟩ := by
        unfold idle_task
        rw [if_pos hstart, loginPhase_some st env tok hsess]
        dsimp only
        rw [pollPhase_resolver_fault cfg st env c msg hdue hm hr, handleFault_miss _ c hc]
        dsimp only
        rw [publishPhase_not_due { st with request_num := st.request_num + 1 } env tok hsess hpub]
        rfl
      rw [h1]
      rw [if_neg hc, if_neg hc]
      exact ⟨hsess, rfl⟩
  · intro hstart hsess hm hdue hr hpub
    by_cases hc : c = "-32002"
    · subst hc
      have h1 : idle_task cfg st env =
          ⟨{ st with request_num := st.request_num + 1, session := none },
           [⟨sessionOr st.session, "call", "vuci.network.mobile", "mobile_info"⟩],
           [], false⟩ := by
        unfold idle_task
        rw [if_pos hstart, loginPhase_some st env tok hsess]
        dsimp only
        rw [pollPhase_fault cfg st env m "-32002" msg hdue hm hr, handleFault_hit]
        dsimp only
        rw [publishPhase_no_session _ env rfl]
        rfl
      rw [h1]
      exact ⟨by simp, by simp [sessionOr]⟩
    · have h1 : idle_task cfg st env =
          ⟨{ st with request_num := st.request_num + 1 },
           [⟨sessionOr st.session, "call", "vuci.network.mobile", "mobile_info"⟩],
           [], false⟩ := by
        unfold idle_task
        rw [if_pos hstart, loginPhase_some st env tok hsess]
        dsimp only
        rw [pollPhase_fault cfg st env m c msg hdue hm hr, handleFault_miss _ c hc]
        dsimp only
        rw [publishPhase_not_due { st with request_num := st.request_num + 1 } env tok hsess hpub]
        rfl
      rw [h1]
      rw [if_neg hc, if_neg hc]
      exact ⟨hsess, rfl⟩
  · intro hstart hsess hpoll hdue30 hpos hr
    rw [idle_task_publish_only cfg st env tok hstart hsess hpoll]
    dsimp only
    rw [publishPhase_set1_fault st env tok c msg p hsess hdue30 hpos hr]
    by_cases hc : c = "-32002"
    · subst hc
      rw [handleFault_hit]
      exact ⟨by simp, by simp [sessionOr]⟩
    · rw [handleFault_miss _ c hc, if_neg hc, if_neg hc]
      exact ⟨hsess, rfl⟩
  · intro hstart hsess hpoll hdue30 hpos hr1 hr2
    rw [idle_task_publish_only cfg st env tok hstart hsess hpoll]
    dsimp only
    rw [publishPhase_set2_fault st env tok c msg p code1 hsess hdue30 hpos hr1 hr2]
    by_cases hc : c = "-32002"
    · subst hc
      rw [handleFault_hit]
      exact ⟨by simp, by simp [sessionOr]⟩
    · rw [handleFault_miss _ c hc, if_neg hc, if_neg hc]
      exact ⟨hsess, rfl⟩
  · intro hstart hsess hpoll hdue30 hpos hr1 hr2 hr3
    rw [idle_task_publish_only cfg st env tok hstart hsess hpoll]
    dsimp only
    rw [publishPhase_apply_fault st env tok c msg p code1 code2 hsess hdue30 hpos hr1 hr2 hr3]
    by_cases hc : c = "-32002"
    · subst hc
      rw [handleFault_hit]
      exact ⟨by simp, by simp [sessionOr]⟩
    · rw [handleFault_miss _ c hc, if_neg hc, if_neg hc]
      exact ⟨hsess, rfl⟩
  · intro hstart hsess hgt hr
    rw [idle_task_login_fault cfg st env c msg hstart hsess hgt hr]
    exact ⟨rfl, rfl, rfl⟩

theorem C2_witness :
    (((idle_task ⟨1, false, false⟩ ⟨true, some "T", none, 0, 0, 1, 0, none⟩
        ⟨10, .fault "x" "x", .fault "-32002" "m", .fault "x" "x", .ok 0 (), .ok 0 (),
         .ok 0 (), false, [], [], none⟩).state.session =
        (if "-32002" = "-32002" then none else some "T")) ∧
      sessionOr (idle_task ⟨1, false, false⟩ ⟨true, some "T", none, 0, 0, 1, 0, none⟩
        ⟨10, .fault "x" "x", .fault "-32002" "m", .fault "x" "x", .ok 0 (), .ok 0 (),
         .ok 0 (), false, [], [], none⟩).state.session =
        (if "-32002" = "-32002" then placeholderSession else sessionOr (some "T"))) ∧
    (((idle_task ⟨1, false, false⟩ ⟨true, some "T", none, 0, 0, 1, 0, some "3-1"⟩
        ⟨10, .fault "x" "x", .fault "x" "x", .fault "-32002" "m", .ok 0 (), .ok 0 (),
         .ok 0 (), false, [], [], none⟩).state.session =
        (if "-32002" = "-32002" then none else some "T")) ∧
      sessionOr (idle_task ⟨1, false, false⟩ ⟨true, some "T", none, 0, 0, 1, 0, some "3-1"⟩
        ⟨10, .fault "x" "x", .fault "x" "x", .fault "-32002" "m", .ok 0 (), .ok 0 (),
         .ok 0 (), false, [], [], none⟩).state.session =
        (if "-32002" = "-32002" then placeholderSession else sessionOr (some "T"))) ∧
    (((idle_task ⟨1, false, false⟩ ⟨true, some "T", none, 100, 0, 1, 0, some "3-1"⟩
        ⟨100, .fault "x" "x", .fault "x" "x", .fault "x" "x", .fault "-9" "m", .ok 0 (),
         .ok 0 (), false, [], [], some ⟨1, 2⟩⟩).state.session =
        (if "-9" = "-32002" then none else some "T")) ∧
      sessionOr (idle_task ⟨1, false, false⟩ ⟨true, some "T", none, 100, 0, 1, 0, some "3-1"⟩
        ⟨100, .fault "x" "x", .fault "x" "x", .fault "x" "x", .fault "-9" "m", .ok 0 (),
         .ok 0 (), false, [], [], some ⟨1, 2⟩⟩).state.session =
        (if "-9" = "-32002" then placeholderSession else sessionOr (some "T"))) ∧
    (((idle_task ⟨1, false, false⟩ ⟨true, some "T", none, 100, 0, 1, 0, some "3-1"⟩
        ⟨100, .fault "x" "x", .fault "x" "x", .fault "x" "x", .ok 0 (), .fault "-32002" "m",
         .ok 0 (), false, [], [], some ⟨1, 2⟩⟩).state.session =
        (if "-32002" = "-32002" then none else some "T")) ∧
      sessionOr (idle_task ⟨1, false, false⟩ ⟨true, some "T", none, 100, 0, 1, 0, some "3-1"⟩
        ⟨100, .fault "x" "x", .fault "x" "x", .fault "x" "x", .ok 0 (), .fault "-32002" "m",
         .ok 0 (), false, [], [], some ⟨1, 2⟩⟩).state.session =
        (if "-32002" = "-32002" then placeholderSession else sessionOr (some "T"))) ∧
    (((idle_task ⟨1, false, false⟩ ⟨true, some "T", none, 100, 0, 1, 0, some "3-1"⟩
        ⟨100, .fault "x" "x", .fault "x" "x", .fault "x" "x", .ok 7 (), .ok 0 (),
         .fault "-9" "m", false, [], [], some ⟨1, 2⟩⟩).state.session =
        (if "-9" = "-32002" then none else some "T")) ∧
      sessionOr (idle_task ⟨1, false, false⟩ ⟨true, some "T", none, 100, 0, 1, 0, some "3-1"⟩
        ⟨100, .fault "x" "x", .fault "x" "x", .fault "x" "x", .ok 7 (), .ok 0 (),
         .fault "-9" "m", false, [], [], some ⟨1, 2⟩⟩).state.session =
        (if "-9" = "-32002" then placeholderSession else sessionOr (some "T"))) ∧
    (((idle_task ⟨1, false, false⟩ ⟨true, none, none, 10, 0, 1, 0, some "m"⟩
        ⟨10, .fault "-32002" "m", .ok 0 none, .ok 0 none, .ok 0 (), .ok 0 (),
         .ok 0 (), false, [], [], none⟩).state.session = none) ∧
      sessionOr (idle_task ⟨1, false, false⟩ ⟨true, none, none, 10, 0, 1, 0, some "m"⟩
        ⟨10, .fault "-32002" "m", .ok 0 none, .ok 0 none, .ok 0 (), .ok 0 (),
         .ok 0 (), false, [], [], none⟩).state.session = placeholderSession ∧
      (idle_task ⟨1, false, false⟩ ⟨true, none, none, 10, 0, 1, 0, some "m"⟩
        ⟨10, .fault "-32002" "m", .ok 0 none, .ok 0 none, .ok 0 (), .ok 0 (),
         .ok 0 (), false, [], [], none⟩).crashed = true) :=
  ⟨(C2_invalid_session_code_match ⟨1, false, false⟩
      ⟨true, some "T", none, 0, 0, 1, 0, none⟩
      ⟨10, .fault "x" "x", .fault "-32002" "m", .fault "x" "x", .ok 0 (), .ok 0 (),
       .ok 0 (), false, [], [], none⟩
      "T" "x" "-32002" "m" ⟨1, 2⟩ 0 0).1
     rfl rfl rfl (by decide) rfl (by decide),
   (C2_invalid_session_code_match ⟨1, false, false⟩
      ⟨true, some "T", none, 0, 0, 1, 0, some "3-1"⟩
      ⟨10, .fault "x" "x", .fault "x" "x", .fault "-32002" "m", .ok 0 (), .ok 0 (),
       .ok 0 (), false, [], [], none⟩
      "T" "3-1" "-32002" "m" ⟨1, 2⟩ 0 0).2.1
     rfl rfl rfl (by decide) rfl (by decide),
   (C2_invalid_session_code_match ⟨1, false, false⟩
      ⟨true, some "T", none, 100, 0, 1, 0, some "3-1"⟩
      ⟨100, .fault "x" "x", .fault "x" "x", .fault "x" "x", .fault "-9" "m", .ok 0 (),
       .ok 0 (), false, [], [], some ⟨1, 2⟩⟩
      "T" "3-1" "-9" "m" ⟨1, 2⟩ 0 0).2.2.1
     rfl rfl (by decide) (by decide) rfl rfl,
   (C2_invalid_session_code_match ⟨1, false, false⟩
      ⟨true, some "T", none, 100, 0, 1, 0, some "3-1"⟩
      ⟨100, .fault "x" "x", .fault "x" "x", .fault "x" "x", .ok 0 (), .fault "-32002" "m",
       .ok 0 (), false, [], [], some ⟨1, 2⟩⟩
      "T" "3-1" "-32002" "m" ⟨1, 2⟩ 0 0).2.2.2.1
     rfl rfl (by decide) (by decide) rfl rfl rfl,
   (C2_invalid_session_code_match ⟨1, false, false⟩
      ⟨true, some "T", none, 100, 0, 1, 0, some "3-1"⟩
      ⟨100, .fault "x" "x", .fault "x" "x", .fault "x" "x", .ok 7 (), .ok 0 (),
       .fault "-9" "m", false, [], [], some ⟨1, 2⟩⟩
      "T" "3-1" "-9" "m" ⟨1, 2⟩ 7 0).2.2.2.2.1
     rfl rfl (by decide) (by decide) rfl rfl rfl rfl,
   (C2_invalid_session_code_match ⟨1, false, false⟩
      ⟨true, none, none, 10, 0, 1, 0, some "m"⟩
      ⟨10, .fault "-32002" "m", .ok 0 none, .ok 0 none, .ok 0 (), .ok 0 (),
       .ok 0 (), false, [], [], none⟩
      "T" "m" "-32002" "m" ⟨1, 2⟩ 0 0).2.2.2.2.2
     rfl rfl (by decide) rfl⟩

end
